import Mathlib

/-!
Verification of the recipient-resolution subsystem of
numberly/alertmanager-twilio-gsheets (src/main.go).

The embedding models:
 - the two `go-cache` instances (`shortCache`, `longCache`) as association
   lists of (key, value, absolute-expiry) triples, with `Get`/`Set`
   translated from the library semantics used by the program
   (`Set` with default expiration; `Get` hides expired entries);
 - `getTeamNumbers` (main.go:175-220), the two-tier cached resolver;
 - `getPhonesFromLabel` (main.go:152-172), the override-label parser, with
   the regular expression `[1-9]\d{1,14}(,[1-9]\d{1,14})*` translated to an
   executable matcher over comma-split tokens;
 - the per-alert portion of `webhook` (main.go:123-147), which determines
   recipients and hands `"+" ++ recipient` to `sendSms`.

Network effects are passed in explicitly: a `FetchResult` value stands for
the outcome of the `NewSpreadsheetService` / `Values.Get` call pair, and the
current time `now` is an explicit `Nat` parameter.
-/

/-- One `go-cache` instance: a default TTL (`none` = `NoExpiration`) and the
stored entries, newest first.  Each entry is (key, value, absolute expiry);
expiry `none` means the entry never expires. -/
structure Cache where
  defaultTTL : Option Nat
  entries : List (String × List String × Option Nat)
deriving DecidableEq

/-- `cache.Get`: the most recent entry for the key, unless it has expired
(an entry with expiry `e` is visible while `now ≤ e`). -/
def cacheGet (c : Cache) (now : Nat) (k : String) : Option (List String) :=
  match c.entries.find? (fun e => e.1 == k) with
  | none => none
  | some (_, v, none) => some v
  | some (_, v, some exp) => if now ≤ exp then some v else none

/-- `cache.Set` with `cache.DefaultExpiration`: prepend a fresh entry whose
expiry is `now + defaultTTL` (never, when the cache uses `NoExpiration`). -/
def cacheSet (c : Cache) (now : Nat) (k : String) (v : List String) : Cache :=
  { c with entries := (k, v, c.defaultTTL.map (now + ·)) :: c.entries }

/-- Short-cache TTL: `10*time.Minute` (main.go:98), in seconds. -/
def shortCacheTTL : Nat := 10 * 60

/-- `cache.New(10*time.Minute, 10*time.Minute)` (main.go:98). -/
def initialShortCache : Cache := ⟨some shortCacheTTL, []⟩

/-- `cache.New(cache.NoExpiration, 0)` (main.go:99). -/
def initialLongCache : Cache := ⟨none, []⟩

/-- The mutable state of `Server` relevant to resolution: the two caches. -/
structure ServerState where
  shortCache : Cache
  longCache : Cache
deriving DecidableEq

/-- Cache state at process start: both caches empty. -/
def initialState : ServerState := ⟨initialShortCache, initialLongCache⟩

/-- The body of the row loop (main.go:211-212): one sheet row
`key :: vals` is written into BOTH caches under its first cell. -/
def writeRow (st : ServerState) (now : Nat) (key : String) (vals : List String) : ServerState :=
  { shortCache := cacheSet st.shortCache now key vals
    longCache := cacheSet st.longCache now key vals }

/-- Fold of `writeRow` over a list of rows, skipping zero-column rows;
the cache state produced by processing rows without an early return. -/
def writeRows (st : ServerState) (now : Nat) (rows : List (List String)) : ServerState :=
  rows.foldl
    (fun s row =>
      match row with
      | [] => s
      | key :: vals => writeRow s now key vals)
    st

/-- Outcome of the directory fetch attempted on a short-cache miss:
`connectError` if `NewSpreadsheetService` fails (main.go:182),
`readError` if `Values.Get(...).Do()` fails (main.go:193), and
`ok rows` on success, each row being the list of its cells as strings. -/
inductive FetchResult where
  | connectError (msg : String)
  | readError (msg : String)
  | ok (rows : List (List String))
deriving DecidableEq

/-- Whether the fetch failed (client construction or read error). -/
def FetchResult.isFailure : FetchResult → Bool
  | .connectError _ => true
  | .readError _ => true
  | .ok _ => false

/-- Long-cache fallback consulted on fetch failure (main.go:185-190 and
196-201): the long-cache entry if present, else a not-found error. -/
def fallbackLookup (st : ServerState) (now : Nat) (team : String) :
    Except String (List String) :=
  match cacheGet st.longCache now team with
  | some nums => .ok nums
  | none => .error ("No numbers found in fallback cache for team " ++ team)

/-- The row loop of `getTeamNumbers` (main.go:209-219): rows with at least
one cell are written into both caches; when the first cell equals the
requested team the loop returns that row's remaining cells at once;
otherwise a not-found error is produced after the loop. -/
def processRows (st : ServerState) (now : Nat) (team : String) :
    List (List String) → Except String (List String) × ServerState
  | [] => (.error ("No row found in Sheet for team " ++ team), st)
  | [] :: rest => processRows st now team rest
  | (key :: vals) :: rest =>
      if key == team then (.ok vals, writeRow st now key vals)
      else processRows (writeRow st now key vals) now team rest

deriving instance DecidableEq for Except

/-- Result of one `getTeamNumbers` call: the returned value or error, the
cache state after the call, and whether the directory client was used
(false exactly on the short-cache fast path). -/
structure ResolveOut where
  result : Except String (List String)
  state : ServerState
  fetched : Bool
deriving DecidableEq

/-- `getTeamNumbers` (main.go:175-220): short-cache hit returns at once;
otherwise the fetch outcome is consumed: fallback lookup on failure, an
"empty sheet" error on a zero-row snapshot, and the row loop otherwise. -/
def getTeamNumbers (st : ServerState) (now : Nat) (fetch : FetchResult)
    (team : String) : ResolveOut :=
  match cacheGet st.shortCache now team with
  | some nums => ⟨.ok nums, st, false⟩
  | none =>
    match fetch with
    | .connectError _ => ⟨fallbackLookup st now team, st, true⟩
    | .readError _ => ⟨fallbackLookup st now team, st, true⟩
    | .ok rows =>
      match rows with
      | [] => ⟨.error "Sheet appears to be empty :(", st, true⟩
      | r :: rs =>
          ⟨(processRows st now team (r :: rs)).1,
           (processRows st now team (r :: rs)).2, true⟩

/-- Whether a row's first cell equals the requested team — the loop's
early-return test `row[0] == team` (main.go:213); a zero-column row has no
first cell and never matches. -/
def headMatches (team : String) : List String → Bool
  | [] => false
  | key :: _ => key == team

/-- The prefix of the snapshot the row loop actually processes: everything
up to and including the first row matching the team (the whole snapshot if
none matches). -/
def takeUntilMatch (team : String) : List (List String) → List (List String)
  | [] => []
  | row :: rest =>
      if headMatches team row then [row]
      else row :: takeUntilMatch team rest

/- Basic cache lemmas. -/

theorem cacheGet_cacheSet_same (c : Cache) (now : Nat) (k : String) (v : List String) :
    cacheGet (cacheSet c now k v) now k = some v := by
  unfold cacheGet cacheSet
  cases c.defaultTTL <;> simp [List.find?, Nat.le_add_right]

theorem cacheGet_cacheSet_other (c : Cache) (now : Nat) (k k' : String)
    (v : List String) (h : k' ≠ k) :
    cacheGet (cacheSet c now k v) now k' = cacheGet c now k' := by
  unfold cacheGet cacheSet
  have hk : (k == k') = false := by
    exact beq_false_of_ne (fun he => h he.symm)
  simp [List.find?, hk]

/-- Claim C3: for every team with a non-expired short-cache entry, resolving
that team returns exactly that entry's recipient set, performs no directory
fetch, and leaves both caches unchanged. -/
theorem resolve_short_cache_hit (st : ServerState) (now : Nat)
    (fetch : FetchResult) (team : String) (nums : List String)
    (h : cacheGet st.shortCache now team = some nums) :
    getTeamNumbers st now fetch team = ⟨.ok nums, st, false⟩ := by
  unfold getTeamNumbers
  rw [h]

/-- Witness for C3 at a concrete state: the short cache holds a non-expired
entry for "infra" and resolution returns it without fetching. -/
theorem resolve_short_cache_hit_witness :
    getTeamNumbers ⟨⟨some shortCacheTTL, [("infra", ["33611111111"], some 600)]⟩,
        initialLongCache⟩ 100 (.connectError "down") "infra" =
      ⟨.ok ["33611111111"],
       ⟨⟨some shortCacheTTL, [("infra", ["33611111111"], some 600)]⟩,
        initialLongCache⟩, false⟩ :=
  resolve_short_cache_hit _ 100 _ "infra" _ (by decide)

/-- Claim C4: on a short-cache miss with a failed fetch (client construction
error or read error), the long-cache entry for the team is returned exactly
when present, and otherwise resolution fails with the fallback not-found
error; the caches are not mutated. -/
theorem resolve_fallback_on_failure (st : ServerState) (now : Nat)
    (fetch : FetchResult) (team : String)
    (hmiss : cacheGet st.shortCache now team = none)
    (hfail : fetch.isFailure = true) :
    (∀ nums, cacheGet st.longCache now team = some nums →
        getTeamNumbers st now fetch team = ⟨.ok nums, st, true⟩) ∧
    (cacheGet st.longCache now team = none →
        getTeamNumbers st now fetch team =
          ⟨.error ("No numbers found in fallback cache for team " ++ team),
           st, true⟩) := by
  cases fetch with
  | connectError msg =>
      constructor
      · intro nums hl
        unfold getTeamNumbers fallbackLookup
        rw [hmiss, hl]
      · intro hl
        unfold getTeamNumbers fallbackLookup
        rw [hmiss, hl]
  | readError msg =>
      constructor
      · intro nums hl
        unfold getTeamNumbers fallbackLookup
        rw [hmiss, hl]
      · intro hl
        unfold getTeamNumbers fallbackLookup
        rw [hmiss, hl]
  | ok rows => simp [FetchResult.isFailure] at hfail

/-- Witness for C4 at a concrete state: the fetch read fails, the long
cache holds a (stale) entry for "infra", and exactly that entry is
returned. -/
theorem resolve_fallback_on_failure_witness :
    getTeamNumbers ⟨initialShortCache, ⟨none, [("infra", ["33333333333"], none)]⟩⟩
        0 (.readError "quota exceeded") "infra" =
      ⟨.ok ["33333333333"],
       ⟨initialShortCache, ⟨none, [("infra", ["33333333333"], none)]⟩⟩, true⟩ :=
  (resolve_fallback_on_failure _ 0 _ "infra" (by decide) (by decide)).1 _ (by decide)

/-- Counterexample to claim C2 as stated: on a short-cache miss where the
fetch succeeds with a structurally empty snapshot, the resolver does NOT
fall back to the long cache — here the long cache holds an entry for
"infra", yet the call returns the empty-sheet error instead of that
entry. -/
theorem empty_snapshot_no_fallback_counterexample :
    cacheGet (⟨initialShortCache, ⟨none, [("infra", ["33333333333"], none)]⟩⟩ :
          ServerState).longCache 0 "infra" = some ["33333333333"] ∧
    getTeamNumbers ⟨initialShortCache, ⟨none, [("infra", ["33333333333"], none)]⟩⟩
        0 (.ok []) "infra" =
      ⟨.error "Sheet appears to be empty :(",
       ⟨initialShortCache, ⟨none, [("infra", ["33333333333"], none)]⟩⟩, true⟩ := by
  constructor
  · decide
  · decide

/-- Claim C2 amended: on a short-cache miss where the fetch succeeds with a
structurally empty snapshot, the resolver fails at once with the
empty-sheet error, never consulting the long cache (the outcome is the
same whatever the long cache holds) and mutating neither cache. -/
theorem empty_snapshot_errors (st : ServerState) (now : Nat) (team : String)
    (hmiss : cacheGet st.shortCache now team = none) :
    getTeamNumbers st now (.ok []) team =
      ⟨.error "Sheet appears to be empty :(", st, true⟩ := by
  unfold getTeamNumbers
  rw [hmiss]

/-- Witness for the amended C2: concrete call on a state whose long cache
holds an entry for the requested team. -/
theorem empty_snapshot_errors_witness :
    getTeamNumbers ⟨initialShortCache, ⟨none, [("blue", ["33222222222"], none)]⟩⟩
        7 (.ok []) "blue" =
      ⟨.error "Sheet appears to be empty :(",
       ⟨initialShortCache, ⟨none, [("blue", ["33222222222"], none)]⟩⟩, true⟩ :=
  empty_snapshot_errors _ 7 "blue" (by decide)

/-- The row loop never finds the requested team when no row's first cell
matches it; the loop then ends in the sheet-level not-found error. -/
theorem processRows_no_match (now : Nat) (team : String) (rows : List (List String)) :
    ∀ st : ServerState, (∀ r ∈ rows, headMatches team r = false) →
      (processRows st now team rows).1 =
        .error ("No row found in Sheet for team " ++ team) := by
  induction rows with
  | nil => intro st _; rfl
  | cons row rest ih =>
      intro st h
      cases row with
      | nil =>
          simp only [processRows]
          exact ih st (fun r hr => h r (List.mem_cons_of_mem _ hr))
      | cons k v =>
          have hk : (k == team) = false := h (k :: v) (List.mem_cons_self _ _)
          simp only [processRows, hk, if_false, Bool.false_eq_true]
          exact ih _ (fun r hr => h r (List.mem_cons_of_mem _ hr))

/-- Reduction of `getTeamNumbers` on a short-cache miss with a successful
non-empty fetch: the call is the row loop, with the fetched flag set. -/
theorem getTeamNumbers_ok_cons (st : ServerState) (now : Nat) (team : String)
    (r : List String) (rs : List (List String))
    (hmiss : cacheGet st.shortCache now team = none) :
    getTeamNumbers st now (.ok (r :: rs)) team =
      ⟨(processRows st now team (r :: rs)).1,
       (processRows st now team (r :: rs)).2, true⟩ := by
  unfold getTeamNumbers
  rw [hmiss]

/-- Claim C5: when the fetch succeeds with a non-empty snapshot containing
no row for the requested team, resolution fails with the sheet-level
not-found error — for every state, in particular whatever the long cache
holds for that team (the long cache is never consulted on this path). -/
theorem resolve_missing_team_not_found (st : ServerState) (now : Nat)
    (team : String) (rows : List (List String))
    (hmiss : cacheGet st.shortCache now team = none)
    (hne : rows ≠ [])
    (hnomatch : ∀ r ∈ rows, headMatches team r = false) :
    (getTeamNumbers st now (.ok rows) team).result =
      .error ("No row found in Sheet for team " ++ team) := by
  obtain ⟨r, rs, hl⟩ := List.exists_cons_of_ne_nil hne
  rw [hl, getTeamNumbers_ok_cons st now team r rs hmiss, ← hl]
  exact processRows_no_match now team rows st hnomatch

/-- Witness for C5: the long cache holds a stale entry for "infra", the
snapshot has a row only for "red"; resolving "infra" still fails with the
sheet-level not-found error rather than the stale entry. -/
theorem resolve_missing_team_not_found_witness :
    (getTeamNumbers ⟨initialShortCache, ⟨none, [("infra", ["33333333333"], none)]⟩⟩
        0 (.ok [["red", "33611111111"]]) "infra").result =
      .error "No row found in Sheet for team infra" :=
  resolve_missing_team_not_found _ 0 "infra" _ (by decide) (by decide) (by decide)

/-- The row loop on a snapshot whose first row for the team is `team :: vals`:
it writes exactly the preceding rows and that row, and returns `vals`. -/
theorem processRows_first_match (now : Nat) (team : String) (vals : List String)
    (rest : List (List String)) (pre : List (List String)) :
    ∀ st : ServerState, (∀ r ∈ pre, headMatches team r = false) →
      processRows st now team (pre ++ (team :: vals) :: rest) =
        (.ok vals, writeRow (writeRows st now pre) now team vals) := by
  induction pre with
  | nil =>
      intro st _
      simp [processRows, writeRows]
  | cons row pre ih =>
      intro st h
      cases row with
      | nil =>
          simp only [List.cons_append, processRows, writeRows, List.foldl_cons]
          exact ih st (fun r hr => h r (List.mem_cons_of_mem _ hr))
      | cons k v =>
          have hk : (k == team) = false := h (k :: v) (List.mem_cons_self _ _)
          simp only [List.cons_append, processRows, hk, if_false, Bool.false_eq_true,
            writeRows, List.foldl_cons]
          exact ih _ (fun r hr => h r (List.mem_cons_of_mem _ hr))

/-- `getTeamNumbers` on a short-cache miss whose snapshot has its first row
for the team equal to `team :: vals`: returns `vals`, the final state is
the writes of the preceding rows plus that row (independent of the rows
after the match), and the fetch was performed. -/
theorem getTeamNumbers_first_match (st : ServerState) (now : Nat) (team : String)
    (vals : List String) (pre rest : List (List String))
    (hmiss : cacheGet st.shortCache now team = none)
    (hpre : ∀ r ∈ pre, headMatches team r = false) :
    getTeamNumbers st now (.ok (pre ++ (team :: vals) :: rest)) team =
      ⟨.ok vals, writeRow (writeRows st now pre) now team vals, true⟩ := by
  have hne : pre ++ (team :: vals) :: rest ≠ [] := by simp
  obtain ⟨r, rs, hl⟩ := List.exists_cons_of_ne_nil hne
  rw [hl, getTeamNumbers_ok_cons st now team r rs hmiss, ← hl,
    processRows_first_match now team vals rest pre st hpre]

/-- Claim C9: on a successful non-empty fetch whose snapshot contains a row
for the requested team, resolution returns the recipient set of the FIRST
matching row, and the final cache state is exactly the writes of the rows
up to and including that match — the rows after it are written to neither
cache. -/
theorem resolve_returns_first_match (st : ServerState) (now : Nat) (team : String)
    (vals : List String) (pre rest : List (List String))
    (hmiss : cacheGet st.shortCache now team = none)
    (hpre : ∀ r ∈ pre, headMatches team r = false) :
    getTeamNumbers st now (.ok (pre ++ (team :: vals) :: rest)) team =
      ⟨.ok vals, writeRow (writeRows st now pre) now team vals, true⟩ :=
  getTeamNumbers_first_match st now team vals pre rest hmiss hpre

/-- Witness for C9: three-row snapshot with the match in the middle; the
result is the middle row's numbers, and the trailing "blue" row reached
neither cache. -/
theorem resolve_returns_first_match_witness :
    getTeamNumbers initialState 0
        (.ok [["red", "33611111111"], ["infra", "33622222222"], ["blue", "33633333333"]])
        "infra" =
      ⟨.ok ["33622222222"],
       writeRow (writeRows initialState 0 [["red", "33611111111"]]) 0 "infra" ["33622222222"],
       true⟩ ∧
    cacheGet (getTeamNumbers initialState 0
        (.ok [["red", "33611111111"], ["infra", "33622222222"], ["blue", "33633333333"]])
        "infra").state.shortCache 0 "blue" = none :=
  ⟨resolve_returns_first_match initialState 0 "infra" ["33622222222"]
      [["red", "33611111111"]] [["blue", "33633333333"]] (by decide) (by decide),
   by decide⟩

/-- Counterexample to claim C7 as stated: the snapshot contains the
one-column row ["b"], but because the loop returns at the earlier match for
"a", that row is written to NEITHER cache, so no empty-recipient-set entry
for "b" exists after the call. -/
theorem single_column_row_counterexample :
    (getTeamNumbers initialState 0 (.ok [["a", "1"], ["b"]]) "a").result = .ok ["1"] ∧
    cacheGet (getTeamNumbers initialState 0
        (.ok [["a", "1"], ["b"]]) "a").state.shortCache 0 "b" = none ∧
    cacheGet (getTeamNumbers initialState 0
        (.ok [["a", "1"], ["b"]]) "a").state.longCache 0 "b" = none := by
  exact ⟨by decide, by decide, by decide⟩

/-- Claim C7 amended: a one-column row `[team]` that is the first row for
the requested team is written into both caches with the empty recipient
set, and resolving that team returns the empty set rather than an error. -/
theorem single_column_row_empty_set (st : ServerState) (now : Nat) (team : String)
    (pre rest : List (List String))
    (hmiss : cacheGet st.shortCache now team = none)
    (hpre : ∀ r ∈ pre, headMatches team r = false) :
    (getTeamNumbers st now (.ok (pre ++ [team] :: rest)) team).result = .ok [] ∧
    cacheGet (getTeamNumbers st now
        (.ok (pre ++ [team] :: rest)) team).state.shortCache now team = some [] ∧
    cacheGet (getTeamNumbers st now
        (.ok (pre ++ [team] :: rest)) team).state.longCache now team = some [] := by
  have h := getTeamNumbers_first_match st now team [] pre rest hmiss hpre
  rw [h]
  exact ⟨rfl, cacheGet_cacheSet_same _ now team [], cacheGet_cacheSet_same _ now team []⟩

/-- Witness for the amended C7: the one-column row ["ops"] sits between two
other rows; resolving "ops" yields the empty set and both caches hold
"ops" with the empty recipient set. -/
theorem single_column_row_empty_set_witness :
    (getTeamNumbers initialState 0
        (.ok [["red", "1"], ["ops"], ["blue", "2"]]) "ops").result = .ok [] ∧
    cacheGet (getTeamNumbers initialState 0
        (.ok [["red", "1"], ["ops"], ["blue", "2"]]) "ops").state.shortCache 0 "ops" = some [] ∧
    cacheGet (getTeamNumbers initialState 0
        (.ok [["red", "1"], ["ops"], ["blue", "2"]]) "ops").state.longCache 0 "ops" = some [] :=
  single_column_row_empty_set initialState 0 "ops" [["red", "1"]] [["blue", "2"]]
    (by decide) (by decide)

/-- Lookup after `writeRow` at the written key, short cache. -/
theorem writeRow_get_same_short (st : ServerState) (now : Nat) (key : String)
    (vals : List String) :
    cacheGet (writeRow st now key vals).shortCache now key = some vals :=
  cacheGet_cacheSet_same _ now key vals

/-- Lookup after `writeRow` at the written key, long cache. -/
theorem writeRow_get_same_long (st : ServerState) (now : Nat) (key : String)
    (vals : List String) :
    cacheGet (writeRow st now key vals).longCache now key = some vals :=
  cacheGet_cacheSet_same _ now key vals

/-- Lookup after `writeRow` at a different key, short cache. -/
theorem writeRow_get_other_short (st : ServerState) (now : Nat) (key k : String)
    (vals : List String) (h : k ≠ key) :
    cacheGet (writeRow st now key vals).shortCache now k =
      cacheGet st.shortCache now k :=
  cacheGet_cacheSet_other _ now key k vals h

/-- Lookup after `writeRow` at a different key, long cache. -/
theorem writeRow_get_other_long (st : ServerState) (now : Nat) (key k : String)
    (vals : List String) (h : k ≠ key) :
    cacheGet (writeRow st now key vals).longCache now k =
      cacheGet st.longCache now k :=
  cacheGet_cacheSet_other _ now key k vals h

/-- A key on which the two caches agree still agrees (possibly with a new
value) after one `writeRow`: the row is written to both caches with the
same recipient set. -/
theorem writeRow_preserves_agree (st : ServerState) (now : Nat) (k0 k : String)
    (v0 : List String)
    (h : ∃ v, cacheGet st.shortCache now k = some v ∧
        cacheGet st.longCache now k = some v) :
    ∃ v, cacheGet (writeRow st now k0 v0).shortCache now k = some v ∧
        cacheGet (writeRow st now k0 v0).longCache now k = some v := by
  by_cases hk : k = k0
  · subst hk
    exact ⟨v0, writeRow_get_same_short st now k v0, writeRow_get_same_long st now k v0⟩
  · obtain ⟨v, h1, h2⟩ := h
    exact ⟨v, by rw [writeRow_get_other_short st now k0 k v0 hk]; exact h1,
      by rw [writeRow_get_other_long st now k0 k v0 hk]; exact h2⟩

/-- The row loop preserves cross-cache agreement on any key: every write it
performs goes to both caches with the same value. -/
theorem processRows_preserves_agree (now : Nat) (team k : String)
    (rows : List (List String)) :
    ∀ st : ServerState,
      (∃ v, cacheGet st.shortCache now k = some v ∧
          cacheGet st.longCache now k = some v) →
      ∃ v, cacheGet (processRows st now team rows).2.shortCache now k = some v ∧
          cacheGet (processRows st now team rows).2.longCache now k = some v := by
  induction rows with
  | nil => intro st h; exact h
  | cons row rest ih =>
      intro st h
      cases row with
      | nil =>
          simp only [processRows]
          exact ih st h
      | cons k0 v0 =>
          by_cases hmatch : (k0 == team) = true
          · simp only [processRows, hmatch, if_true]
            exact writeRow_preserves_agree st now k0 k v0 h
          · simp only [processRows, hmatch, if_false, Bool.false_eq_true]
            exact ih _ (writeRow_preserves_agree st now k0 k v0 h)

/-- Every row the loop processes (the prefix up to and including the first
match) ends up with its key present in BOTH caches, with the same recipient
set in each. -/
theorem processRows_writes_prefix (now : Nat) (team key : String)
    (vals : List String) (rows : List (List String)) :
    ∀ st : ServerState, (key :: vals) ∈ takeUntilMatch team rows →
      ∃ v, cacheGet (processRows st now team rows).2.shortCache now key = some v ∧
          cacheGet (processRows st now team rows).2.longCache now key = some v := by
  induction rows with
  | nil => intro st h; simp [takeUntilMatch] at h
  | cons row rest ih =>
      intro st hmem
      cases row with
      | nil =>
          have hmem' : (key :: vals) ∈ takeUntilMatch team rest := by
            simp only [takeUntilMatch, headMatches, if_false, Bool.false_eq_true] at hmem
            rcases List.mem_cons.mp hmem with he | hm
            · exact absurd he (List.cons_ne_nil key vals)
            · exact hm
          simp only [processRows]
          exact ih st hmem'
      | cons k0 v0 =>
          by_cases hmatch : (k0 == team) = true
          · have hmem' : key :: vals = k0 :: v0 := by
              simp only [takeUntilMatch, headMatches, hmatch, if_true] at hmem
              rcases List.mem_cons.mp hmem with he | hm
              · exact he
              · simp at hm
            have hkey : key = k0 := by injection hmem'
            have hvals : vals = v0 := by injection hmem'
            simp only [processRows, hmatch, if_true]
            subst hkey; subst hvals
            exact ⟨vals, writeRow_get_same_short st now key vals,
              writeRow_get_same_long st now key vals⟩
          · simp only [processRows, hmatch, if_false, Bool.false_eq_true]
            have hred : takeUntilMatch team ((k0 :: v0) :: rest) =
                (k0 :: v0) :: takeUntilMatch team rest := by
              simp [takeUntilMatch, headMatches, hmatch]
            rw [hred] at hmem
            rcases List.mem_cons.mp hmem with he | hm
            · have hkey : key = k0 := by injection he
              have hvals : vals = v0 := by injection he
              subst hkey; subst hvals
              exact processRows_preserves_agree now team key rest _
                ⟨vals, writeRow_get_same_short st now key vals,
                 writeRow_get_same_long st now key vals⟩
            · exact ih _ hm

/-- Counterexample to claim C1 as stated: the fetch succeeds with the
non-empty snapshot [["a","1"],["b","2"]] but, the requested team "a"
matching the first row, the loop returns before the "b" row — which is
therefore present in NEITHER cache after the call. -/
theorem directory_write_all_rows_counterexample :
    (getTeamNumbers initialState 0 (.ok [["a", "1"], ["b", "2"]]) "a").result =
      .ok ["1"] ∧
    cacheGet (getTeamNumbers initialState 0
        (.ok [["a", "1"], ["b", "2"]]) "a").state.shortCache 0 "b" = none ∧
    cacheGet (getTeamNumbers initialState 0
        (.ok [["a", "1"], ["b", "2"]]) "a").state.longCache 0 "b" = none := by
  exact ⟨by decide, by decide, by decide⟩

/-- Claim C1 amended: after a successful non-empty fetch, every row of the
snapshot up to and including the first row matching the requested team
(every row when none matches), other than zero-column rows, has its key
present in BOTH caches with an identical recipient set in each. -/
theorem directory_write_prefix_rows (st : ServerState) (now : Nat)
    (team : String) (rows : List (List String)) (key : String) (vals : List String)
    (hmiss : cacheGet st.shortCache now team = none)
    (hmem : (key :: vals) ∈ takeUntilMatch team rows) :
    ∃ v, cacheGet (getTeamNumbers st now
            (.ok rows) team).state.shortCache now key = some v ∧
        cacheGet (getTeamNumbers st now
            (.ok rows) team).state.longCache now key = some v := by
  cases rows with
  | nil => simp [takeUntilMatch] at hmem
  | cons r rs =>
      rw [getTeamNumbers_ok_cons st now team r rs hmiss]
      exact processRows_writes_prefix now team key vals (r :: rs) st hmem

/-- Witness for the amended C1: requesting "b" on [["a","1"],["b","2"]]
processes both rows; the earlier "a" row is present in both caches with
the same set. -/
theorem directory_write_prefix_rows_witness :
    ∃ v, cacheGet (getTeamNumbers initialState 0
            (.ok [["a", "1"], ["b", "2"]]) "b").state.shortCache 0 "a" = some v ∧
        cacheGet (getTeamNumbers initialState 0
            (.ok [["a", "1"], ["b", "2"]]) "b").state.longCache 0 "a" = some v :=
  directory_write_prefix_rows initialState 0 "b" [["a", "1"], ["b", "2"]] "a" ["1"]
    (by decide) (by decide)

/-- Counterexample to claim C6 as stated: a row whose first cell is the
empty string is NOT skipped — after the call both caches hold an entry
under the empty-string key (the loop only skips zero-column rows,
`len(row) > 0` at main.go:210). -/
theorem empty_team_row_counterexample :
    (getTeamNumbers initialState 0
        (.ok [["", "33611111111"], ["a", "2"]]) "a").result = .ok ["2"] ∧
    cacheGet (getTeamNumbers initialState 0
        (.ok [["", "33611111111"], ["a", "2"]]) "a").state.shortCache 0 "" =
      some ["33611111111"] ∧
    cacheGet (getTeamNumbers initialState 0
        (.ok [["", "33611111111"], ["a", "2"]]) "a").state.longCache 0 "" =
      some ["33611111111"] := by
  exact ⟨by decide, by decide, by decide⟩

/-- Claim C6 amended: the loop skips exactly the zero-column rows (they
touch neither cache and are never returned); a row whose team identifier
is the empty string is processed like any other row — written to both
caches under the empty-string key whenever the requested team differs from
it. -/
theorem row_skipping (st : ServerState) (now : Nat) (team : String)
    (rest : List (List String)) (vals : List String)
    (hteam : team ≠ "") :
    processRows st now team ([] :: rest) = processRows st now team rest ∧
    processRows st now team (("" :: vals) :: rest) =
      processRows (writeRow st now "" vals) now team rest ∧
    cacheGet (writeRow st now "" vals).shortCache now "" = some vals ∧
    cacheGet (writeRow st now "" vals).longCache now "" = some vals := by
  have hk : ("" == team) = false := beq_false_of_ne (fun h => hteam h.symm)
  exact ⟨rfl, by simp [processRows, hk],
    writeRow_get_same_short st now "" vals, writeRow_get_same_long st now "" vals⟩

/-- Witness for the amended C6 at concrete inputs. -/
theorem row_skipping_witness :
    processRows initialState 0 "a" ([] :: [["a", "2"]]) =
      processRows initialState 0 "a" [["a", "2"]] ∧
    processRows initialState 0 "a" (("" :: ["1"]) :: [["a", "2"]]) =
      processRows (writeRow initialState 0 "" ["1"]) 0 "a" [["a", "2"]] ∧
    cacheGet (writeRow initialState 0 "" ["1"]).shortCache 0 "" = some ["1"] ∧
    cacheGet (writeRow initialState 0 "" ["1"]).longCache 0 "" = some ["1"] :=
  row_skipping initialState 0 "a" [["a", "2"]] ["1"] (by decide)

/-- `strings.Split` on a one-character separator, over the character list:
splitting at every occurrence of `sep`; the empty input yields one empty
field, as in Go. -/
def splitFields (sep : Char) : List Char → List (List Char)
  | [] => [[]]
  | c :: rest =>
      match splitFields sep rest, c == sep with
      | r, true => [] :: r
      | [], false => [[c]]
      | t :: ts, false => (c :: t) :: ts

/-- `strings.Split(phoneNumbers, ",")` (main.go:166). -/
def splitOnComma (s : String) : List String :=
  (splitFields ',' s.data).map String.mk

/-- `\d` of the Go pattern: a decimal digit. -/
def isDigitChar (c : Char) : Bool := '0' ≤ c && c ≤ '9'

/-- One token of the override pattern: `[1-9]\d{1,14}` — a digit 1-9
followed by 1 to 14 digits. -/
def phoneToken (s : String) : Bool :=
  match s.data with
  | [] => false
  | c :: rest =>
      ('1' ≤ c && c ≤ '9') && decide (1 ≤ rest.length) &&
        decide (rest.length ≤ 14) && rest.all isDigitChar

/-- The anchored pattern `^[1-9]\d{1,14}(,[1-9]\d{1,14})*$` (main.go:157):
one or more comma-separated tokens.  Tokens contain no comma, so a string
matches exactly when every comma-split field is a token (the empty string
splits to one empty field, which is not a token). -/
def phonesPatternMatch (s : String) : Bool :=
  (splitOnComma s).all phoneToken

/-- `getPhonesFromLabel` (main.go:152-172): the empty label yields no
recipients and no error; a label matching the pattern yields its
comma-split numbers; any other label is a syntax error. -/
def getPhonesFromLabel (phoneNumbers : String) :
    Except String (Option (List String)) :=
  if phoneNumbers = "" then .ok none
  else if phonesPatternMatch phoneNumbers then .ok (some (splitOnComma phoneNumbers))
  else .error "Wrong comma-separated phone numbers syntax"

/-- One incoming alert, reduced to the fields the dispatch loop reads:
`alert.Status`, `alert.Labels["team"]`, `alert.Labels["phone_numbers"]`
and `alert.Annotations["summary"]` (a missing label reads as ""). -/
structure Alert where
  status : String
  team : String
  phoneNumbersLabel : String
  summary : String
deriving DecidableEq

/-- Outcome of dispatching one alert (webhook body, main.go:123-147), with
the notifier assumed to accept every message: `sends` is the list of
(recipient, body) pairs handed to `sendSms` — `.error` when the batch is
aborted by a resolution failure; `directoryInvoked` is whether
`getTeamNumbers` was called; `labelErrorLogged` is whether the
label-parsing failure of main.go:128 was logged. -/
structure DispatchOut where
  sends : Except String (List (String × String))
  state : ServerState
  directoryInvoked : Bool
  labelErrorLogged : Bool
deriving DecidableEq

/-- One iteration of the webhook's alert loop (main.go:123-147): build the
message from status and summary, try the override label, fall through to
`getTeamNumbers` when the label is empty or malformed, and hand
`"+" ++ recipient` (the `fmt.Sprintf("+%v", recipient)` of main.go:141) to
`sendSms` for each resolved recipient. -/
def dispatchAlert (st : ServerState) (now : Nat) (fetch : FetchResult)
    (alert : Alert) : DispatchOut :=
  match getPhonesFromLabel alert.phoneNumbersLabel with
  | .ok (some recipients) =>
      ⟨.ok (recipients.map
          (fun r => ("+" ++ r, alert.status ++ ": " ++ alert.summary))),
       st, false, false⟩
  | .ok none =>
      match (getTeamNumbers st now fetch alert.team).result with
      | .ok recipients =>
          ⟨.ok (recipients.map
              (fun r => ("+" ++ r, alert.status ++ ": " ++ alert.summary))),
           (getTeamNumbers st now fetch alert.team).state, true, false⟩
      | .error e => ⟨.error e, (getTeamNumbers st now fetch alert.team).state, true, false⟩
  | .error _ =>
      match (getTeamNumbers st now fetch alert.team).result with
      | .ok recipients =>
          ⟨.ok (recipients.map
              (fun r => ("+" ++ r, alert.status ++ ": " ++ alert.summary))),
           (getTeamNumbers st now fetch alert.team).state, true, true⟩
      | .error e => ⟨.error e, (getTeamNumbers st now fetch alert.team).state, true, true⟩

/-- The recipients the alert loop settles on before sending: the
override-label numbers when the label parses, otherwise the directory
resolution outcome (main.go:126-138). -/
def resolvedRecipients (st : ServerState) (now : Nat) (fetch : FetchResult)
    (alert : Alert) : Except String (List String) :=
  match getPhonesFromLabel alert.phoneNumbersLabel with
  | .ok (some recipients) => .ok recipients
  | .ok none => (getTeamNumbers st now fetch alert.team).result
  | .error _ => (getTeamNumbers st now fetch alert.team).result

/-- Claim C8: when the override label is non-empty but fails the pattern,
the alert's dispatch logs the parse failure and proceeds to directory
resolution for the alert's team: the directory is invoked, the outcome is
exactly the resolution's outcome ("+"-prefixed sends on success), and the
batch is aborted precisely when that resolution itself fails. -/
theorem malformed_label_falls_through (st : ServerState) (now : Nat)
    (fetch : FetchResult) (alert : Alert)
    (h1 : alert.phoneNumbersLabel ≠ "")
    (h2 : phonesPatternMatch alert.phoneNumbersLabel = false) :
    dispatchAlert st now fetch alert =
      ⟨match (getTeamNumbers st now fetch alert.team).result with
        | .ok recipients => .ok (recipients.map
            (fun r => ("+" ++ r, alert.status ++ ": " ++ alert.summary)))
        | .error e => .error e,
       (getTeamNumbers st now fetch alert.team).state, true, true⟩ := by
  unfold dispatchAlert getPhonesFromLabel
  rw [if_neg h1, h2]
  cases hres : (getTeamNumbers st now fetch alert.team).result with
  | ok recipients => simp [hres]
  | error e => simp [hres]

/-- Witness for C8: label "abc" fails the pattern; the sheet has a row for
the alert's team, so dispatch recovers via directory resolution instead of
aborting. -/
theorem malformed_label_falls_through_witness :
    dispatchAlert initialState 0 (.ok [["infra", "33611111111"]])
        ⟨"firing", "infra", "abc", "disk full"⟩ =
      ⟨match (getTeamNumbers initialState 0
            (.ok [["infra", "33611111111"]]) "infra").result with
        | .ok recipients => .ok (recipients.map
            (fun r => ("+" ++ r, "firing" ++ ": " ++ "disk full")))
        | .error e => .error e,
       (getTeamNumbers initialState 0 (.ok [["infra", "33611111111"]]) "infra").state,
       true, true⟩ :=
  malformed_label_falls_through initialState 0 (.ok [["infra", "33611111111"]])
    ⟨"firing", "infra", "abc", "disk full"⟩ (by decide) (by decide)

/-- Claim C10: whenever recipients are resolved (from the override label or
from the directory), the value handed to the SMS notifier for each resolved
recipient r is exactly the character "+" prepended to r — so a directory
value already starting with "+" is sent with a doubled "++" prefix, and a
label-provided number gains exactly one "+". -/
theorem recipients_prefixed_plus (st : ServerState) (now : Nat)
    (fetch : FetchResult) (alert : Alert) (rs : List String)
    (h : resolvedRecipients st now fetch alert = .ok rs) :
    (dispatchAlert st now fetch alert).sends =
      .ok (rs.map (fun r => ("+" ++ r, alert.status ++ ": " ++ alert.summary))) := by
  unfold dispatchAlert
  unfold resolvedRecipients at h
  cases hl : getPhonesFromLabel alert.phoneNumbersLabel with
  | ok o =>
      cases o with
      | some recipients =>
          rw [hl] at h
          simp only [] at h
          cases h
          simp
      | none =>
          rw [hl] at h
          simp only [] at h
          rw [h]
  | error e =>
      rw [hl] at h
      simp only [] at h
      rw [h]

/-- Witness for C10: the sheet value already carries a "+", and the value
handed to the notifier is "++33611111111" — the doubled prefix. -/
theorem recipients_prefixed_plus_witness :
    (dispatchAlert initialState 0 (.ok [["infra", "+33611111111"]])
        ⟨"firing", "infra", "", "disk full"⟩).sends =
      .ok [("++33611111111", "firing: disk full")] :=
  (recipients_prefixed_plus initialState 0 (.ok [["infra", "+33611111111"]])
      ⟨"firing", "infra", "", "disk full"⟩ ["+33611111111"] (by decide)).trans
    (by decide)
